import Mathlib

/-!
Verification of the template-based test-case synthesis and metrics logic of
the AI-test-synthesis repository (`src/test_engine.py`).  The Python class
`TestArtifactGenerator` is embedded shallowly: its dictionaries become
structures (`StructuredData` models the raw input mapping whose keys may be
absent, `Requirement` the mapping once all required keys are present),
its test-case dictionaries become the `TestCase` structure (a possible
`"error"` key is the `error : Option String` field), and the float scores
become rationals.  Every definition follows the corresponding Python
function line by line.
-/

/-- Substring test on character lists: `containsSub hay pat` is `true` iff
`pat` occurs contiguously inside `hay`.  Models the Python operator
`pat in hay` on strings. -/
def containsSub : List Char → List Char → Bool
  | [], pat => pat.isEmpty
  | c :: cs, pat => pat.isPrefixOf (c :: cs) || containsSub cs pat

/-- String-level substring test, modelling Python `pat in hay`. -/
def strContains (hay pat : String) : Bool :=
  containsSub hay.toList pat.toList

/-- Model of Python `str.lower()` (ASCII, as in the data this program
handles): lower-case every character. -/
def strLower (s : String) : String :=
  String.mk (s.toList.map Char.toLower)

/-- Model of Python `str.upper()`: upper-case every character. -/
def strUpper (s : String) : String :=
  String.mk (s.toList.map Char.toUpper)

/-- Model of Python `str.replace(' ', '_')`: the pattern and replacement are
single characters, so the replacement is a character map. -/
def spacesToUnderscores (s : String) : String :=
  String.mk (s.toList.map fun c => if c = ' ' then '_' else c)

/-- Model of Python `str.isdigit()`: non-empty and all characters decimal
digits. -/
def pyIsdigit (s : String) : Bool :=
  !s.isEmpty && s.toList.all Char.isDigit

/-- Helper for `pySplitWs`: scan the characters, accumulating the current
token in reverse. -/
def splitWsAux : List Char → List Char → List String
  | [], acc => if acc.isEmpty then [] else [String.mk acc.reverse]
  | c :: cs, acc =>
    if c.isWhitespace then
      if acc.isEmpty then splitWsAux cs []
      else String.mk acc.reverse :: splitWsAux cs []
    else splitWsAux cs (c :: acc)

/-- Model of Python `str.split()` with no argument: maximal runs of
non-whitespace characters, with no empty tokens. -/
def pySplitWs (s : String) : List String :=
  splitWsAux s.toList []

/-- Decimal value of an all-digit token, modelling Python `int(s)` on the
tokens that pass `isdigit()`. -/
def digitsToNat (s : String) : Nat :=
  s.toList.foldl (fun n c => n * 10 + (c.toNat - '0'.toNat)) 0

/-- Model of `[int(s) for s in validation.split() if s.isdigit()]` in
`_generate_test_cases_template` (test_engine.py line 250): split the rule
text on whitespace, keep the all-digit tokens, read them as integers. -/
def ruleNumbers (validation : String) : List Int :=
  ((pySplitWs validation).filter fun s => pyIsdigit s).map
    fun s => (digitsToNat s : Int)

/-- The condition under which the template generator emits a Boundary case
for a validation rule (test_engine.py lines 248-251): the rule text contains
"min" or "max" case-insensitively, and holds at least one whitespace-
delimited all-digit token. -/
def matchesBoundary (validation : String) : Bool :=
  (strContains (strLower validation) "min" || strContains (strLower validation) "max")
    && !(ruleNumbers validation).isEmpty

/-- Model of the Python format specifier `{n:03d}`: the decimal digits of
`n`, left-padded with zeros to width at least 3. -/
def pad3 (n : Nat) : String :=
  let s := toString n
  String.mk (List.replicate (3 - s.length) '0') ++ s

/-- A test-case dictionary.  Generated cases carry the five content keys and
no `"error"` key (`error = none`); the failure sentinel of
`generate_test_cases` is a dictionary whose `"error"` key is present
(`error = some msg`). -/
structure TestCase where
  tc_id : String
  title : String
  type : String
  steps : List String
  expected_result : String
  error : Option String := none
  deriving DecidableEq, Repr

/-- The raw input mapping (`structured_data`): each required key may be
absent (`none`).  Wrongly-typed values are outside this embedding. -/
structure StructuredData where
  feature : Option String
  fields : Option (List String)
  validations : Option (List (String × String))
  roles : Option (List String)
  edge_cases : Option (List String)
  deriving DecidableEq, Repr

/-- The input mapping once all five required keys are present; `validations`
is an insertion-ordered dictionary, modelled as an association list. -/
structure Requirement where
  feature : String
  fields : List String
  validations : List (String × String)
  roles : List String
  edge_cases : List String
  deriving DecidableEq, Repr

/-- The Positive case appended for one field (test_engine.py lines 217-228). -/
def fieldCase (feature field : String) (c : Nat) : TestCase :=
  { tc_id := "TC_" ++ pad3 c
    title := "Valid " ++ feature ++ " with correct " ++ field
    type := "Positive"
    steps := ["Open " ++ feature ++ " page",
              "Enter valid " ++ field,
              "Submit the form",
              "Verify submission"]
    expected_result := feature ++ " successful with valid " ++ field }

/-- The Negative case appended for one validation entry (lines 233-244). -/
def validationNegCase (feature field validation : String) (c : Nat) : TestCase :=
  { tc_id := "TC_" ++ pad3 c
    title := "Invalid " ++ feature ++ " - " ++ field ++ " fails " ++ validation
    type := "Negative"
    steps := ["Open " ++ feature ++ " page",
              "Enter invalid " ++ field ++ " (violates: " ++ validation ++ ")",
              "Submit the form",
              "Verify error message"]
    expected_result := "Error message displayed: " ++ validation ++ " validation failed" }

/-- The Boundary case appended for a matching validation entry
(lines 253-264); `b` is `numbers[0]`, the first integer of the rule text. -/
def boundaryCase (feature field validation : String) (b : Int) (c : Nat) : TestCase :=
  { tc_id := "TC_" ++ pad3 c
    title := "Boundary test for " ++ field ++ " - " ++ validation
    type := "Boundary"
    steps := ["Open " ++ feature ++ " page",
              "Enter " ++ field ++ " with boundary value (" ++ toString (b - 1) ++ ", "
                ++ toString b ++ ", " ++ toString (b + 1) ++ ")",
              "Submit the form",
              "Verify behavior at boundary"]
    expected_result := "Correct behavior at " ++ validation ++ " boundary" }

/-- The Negative case appended for one edge case (lines 269-280). -/
def edgeCaseCase (feature edge : String) (c : Nat) : TestCase :=
  { tc_id := "TC_" ++ pad3 c
    title := feature ++ " with " ++ edge
    type := "Negative"
    steps := ["Open " ++ feature ++ " page",
              "Test with " ++ edge,
              "Submit the form",
              "Verify system handles edge case"]
    expected_result := "System properly handles " ++ edge ++ " scenario" }

/-- The Positive case appended for one role (lines 285-296).  The step
"Perform \x7bfeature\x7d operation" is a literal in the source (the Python
line is not an f-string), so it is kept verbatim. -/
def roleCase (feature role : String) (c : Nat) : TestCase :=
  { tc_id := "TC_" ++ pad3 c
    title := feature ++ " access for " ++ role ++ " role"
    type := "Positive"
    steps := ["Login as " ++ role,
              "Access " ++ feature ++ " feature",
              "Verify access permissions",
              "Perform \x7bfeature\x7d operation"]
    expected_result := role ++ " can access and use " ++ feature ++ " feature correctly" }

/-- First integer of the rule text, `numbers[0]` (line 252); only used when
`matchesBoundary` guarantees the list is non-empty. -/
def firstRuleNumber (validation : String) : Int :=
  (ruleNumbers validation).headI

/-- Phase 1 of the template generator: one Positive case per field, the
counter advancing by one per case (lines 216-229).  Returns the emitted
cases together with the counter value after the phase. -/
def genFieldCases (feature : String) : List String → Nat → List TestCase × Nat
  | [], c => ([], c)
  | field :: fs, c =>
    let rest := genFieldCases feature fs (c + 1)
    (fieldCase feature field c :: rest.1, rest.2)

/-- Phase 2: one Negative case per validation entry, immediately followed by
a Boundary case when the rule matches the boundary condition
(lines 232-265). -/
def genValidationCases (feature : String) : List (String × String) → Nat → List TestCase × Nat
  | [], c => ([], c)
  | (field, validation) :: vs, c =>
    if matchesBoundary validation then
      let rest := genValidationCases feature vs (c + 2)
      (validationNegCase feature field validation c ::
         boundaryCase feature field validation (firstRuleNumber validation) (c + 1) :: rest.1,
       rest.2)
    else
      let rest := genValidationCases feature vs (c + 1)
      (validationNegCase feature field validation c :: rest.1, rest.2)

/-- Phase 3: one Negative case per edge case (lines 268-281). -/
def genEdgeCases (feature : String) : List String → Nat → List TestCase × Nat
  | [], c => ([], c)
  | edge :: es, c =>
    let rest := genEdgeCases feature es (c + 1)
    (edgeCaseCase feature edge c :: rest.1, rest.2)

/-- Phase 4: one Positive case per role (lines 284-297). -/
def genRoleCases (feature : String) : List String → Nat → List TestCase × Nat
  | [], c => ([], c)
  | role :: rs, c =>
    let rest := genRoleCases feature rs (c + 1)
    (roleCase feature role c :: rest.1, rest.2)

/-- The template-based generator `_generate_test_cases_template`
(lines 209-299): the four phases run in order with a single counter
starting at 1, and the emitted cases are concatenated in phase order. -/
def _generate_test_cases_template (r : Requirement) : List TestCase :=
  let p1 := genFieldCases r.feature r.fields 1
  let p2 := genValidationCases r.feature r.validations p1.2
  let p3 := genEdgeCases r.feature r.edge_cases p2.2
  let p4 := genRoleCases r.feature r.roles p3.2
  p1.1 ++ p2.1 ++ p3.1 ++ p4.1

/-- The required keys reported missing by `_validate_input`
(lines 107-108), in the order the Python list comprehension checks them. -/
def missingKeys (d : StructuredData) : List String :=
  (if d.feature.isNone then ["feature"] else []) ++
  (if d.fields.isNone then ["fields"] else []) ++
  (if d.validations.isNone then ["validations"] else []) ++
  (if d.roles.isNone then ["roles"] else []) ++
  (if d.edge_cases.isNone then ["edge_cases"] else [])

/-- Input validation (lines 97-125).  The isinstance checks of the source
always pass in this typed embedding, so only the missing-key branch can
fail. -/
def _validate_input (d : StructuredData) : Bool × String :=
  if missingKeys d = [] then (true, "")
  else (false, "Missing required keys: " ++ String.intercalate ", " (missingKeys d))

/-- Unwrap a validated input mapping into the five required values; the
defaults never fire once `_validate_input` has accepted the input. -/
def toRequirement (d : StructuredData) : Requirement :=
  { feature := d.feature.getD ""
    fields := d.fields.getD []
    validations := d.validations.getD []
    roles := d.roles.getD []
    edge_cases := d.edge_cases.getD [] }

/-- The single-element failure sentinel `[\x7b"error": msg\x7d]` returned by
`generate_test_cases` on invalid input (line 141). -/
def errorCase (msg : String) : TestCase :=
  { tc_id := "", title := "", type := "", steps := [], expected_result := ""
    error := some msg }

/-- Model of `generate_test_cases` (lines 127-151) in template mode (no AI backend
configured): validate, and either run the template generator or return the
single-element error sentinel. -/
def generate_test_cases (d : StructuredData) : List TestCase :=
  let vr := _validate_input d
  if vr.1 then _generate_test_cases_template (toRequirement d)
  else [errorCase vr.2]

/-- The guard shared by `create_traceability_matrix` (line 495) and
`calculate_coverage_metrics` (line 544): Python
`not test_cases or "error" in test_cases[0]` inspects only emptiness and the
the `"error"` key of the first element. -/
def hasErrorSentinel (test_cases : List TestCase) : Bool :=
  match test_cases with
  | [] => true
  | tc :: _ => tc.error.isSome

/-- The `coverage` sub-dictionary of the traceability matrix
(lines 518-523). -/
structure CoverageInfo where
  total_requirements : Nat
  total_test_cases : Nat
  coverage_ratio : String
  deriving DecidableEq, Repr

/-- The `mapping` sub-dictionary of the traceability matrix
(lines 524-527); both dictionaries keep the element order of the
requirement. -/
structure MappingInfo where
  fields_covered : List (String × List String)
  edge_cases_covered : List (String × List String)
  deriving DecidableEq, Repr

/-- The traceability matrix returned on the success path (lines 514-528). -/
structure TraceabilityMatrix where
  feature : String
  requirement_id : String
  test_case_ids : List String
  coverage : CoverageInfo
  mapping : MappingInfo
  deriving DecidableEq, Repr

/-- Return type of `create_traceability_matrix`: a matrix or the error
dictionary. -/
inductive TraceResult where
  | ok : TraceabilityMatrix → TraceResult
  | error : String → TraceResult
  deriving DecidableEq, Repr

/-- Constructor test for `TraceResult`. -/
def TraceResult.isOk : TraceResult → Bool
  | .ok _ => true
  | .error _ => false

/-- Model of `create_traceability_matrix` (lines 483-530). -/
def create_traceability_matrix (d : StructuredData) (test_cases : List TestCase) :
    TraceResult :=
  if hasErrorSentinel test_cases then
    .error "Cannot create matrix with invalid test cases"
  else
    let feature := d.feature.getD "Unknown"
    let tc_ids := test_cases.map fun tc => tc.tc_id
    let fields_covered := (d.fields.getD []).map fun field =>
      (field, (test_cases.filter fun tc =>
                 strContains (strLower tc.title) (strLower field)).map fun tc => tc.tc_id)
    let edge_cases_covered := (d.edge_cases.getD []).map fun edge =>
      (edge, (test_cases.filter fun tc =>
                strContains (strLower tc.title) (strLower edge)).map fun tc => tc.tc_id)
    .ok
      { feature := feature
        requirement_id := "REQ_" ++ spacesToUnderscores (strUpper feature)
        test_case_ids := tc_ids
        coverage :=
          { total_requirements := (d.fields.getD []).length + (d.edge_cases.getD []).length
            total_test_cases := tc_ids.length
            coverage_ratio := toString tc_ids.length ++ " : " ++
              toString ((d.fields.getD []).length + (d.edge_cases.getD []).length) }
        mapping :=
          { fields_covered := fields_covered
            edge_cases_covered := edge_cases_covered } }

/-- The `breakdown` sub-dictionary of the metrics (lines 571-576). -/
structure BreakdownInfo where
  fields : Nat
  validations : Nat
  edge_cases : Nat
  roles : Nat
  deriving DecidableEq, Repr

/-- The `test_type_distribution` sub-dictionary (lines 561-565). -/
structure TestTypeDistribution where
  Positive : Nat
  Negative : Nat
  Boundary : Nat
  deriving DecidableEq, Repr

/-- The metrics dictionary returned on the success path (lines 567-580);
the float scores are modelled as rationals. -/
structure CoverageMetrics where
  requirement_coverage_score : ℚ
  total_cases : Nat
  is_automation_ready : Bool
  breakdown : BreakdownInfo
  test_type_distribution : TestTypeDistribution
  coverage_percentage : ℚ
  quality_score : ℚ
  deriving DecidableEq, Repr

/-- Return type of `calculate_coverage_metrics`: metrics or the error
dictionary. -/
inductive MetricsResult where
  | ok : CoverageMetrics → MetricsResult
  | error : String → MetricsResult
  deriving DecidableEq, Repr

/-- Constructor test for `MetricsResult`. -/
def MetricsResult.isOk : MetricsResult → Bool
  | .ok _ => true
  | .error _ => false

/-- The `coverage_percentage` field of a successful metrics result. -/
def coveragePercentageOf : MetricsResult → Option ℚ
  | .ok m => some m.coverage_percentage
  | .error _ => none

/-- The `quality_score` field of a successful metrics result. -/
def qualityScoreOf : MetricsResult → Option ℚ
  | .ok m => some m.quality_score
  | .error _ => none

/-- Model of Python `round(q, 2)`: round to two decimal places. -/
def round2 (q : ℚ) : ℚ :=
  (round (q * 100) : ℚ) / 100

/-- Number of requirement elements whose text occurs case-insensitively in
some test-case title, modelling the `sum(1 for ... if any(...))` loops of
`_calculate_quality_score` (lines 604-606 and 612-614). -/
def coveredCount (elements : List String) (test_cases : List TestCase) : Nat :=
  (elements.filter fun el =>
    test_cases.any fun tc => strContains (strLower tc.title) (strLower el)).length

/-- Model of `_calculate_quality_score` (lines 584-618): four weighted criteria
accumulated into a score, then rounded to two decimal places. -/
def _calculate_quality_score (test_cases : List TestCase) (d : StructuredData) : ℚ :=
  let score : ℚ := 0
  let has_positive := test_cases.any fun tc => tc.type == "Positive"
  let has_negative := test_cases.any fun tc => tc.type == "Negative"
  let score :=
    if has_positive && has_negative then score + 30
    else if has_positive || has_negative then score + 15
    else score
  let has_boundary := test_cases.any fun tc => tc.type == "Boundary"
  let score := if has_boundary then score + 20 else score
  let fields := d.fields.getD []
  let score :=
    if fields ≠ [] then score + ((coveredCount fields test_cases : ℚ) / (fields.length : ℚ)) * 25
    else score
  let edge_cases := d.edge_cases.getD []
  let score :=
    if edge_cases ≠ [] then
      score + ((coveredCount edge_cases test_cases : ℚ) / (edge_cases.length : ℚ)) * 25
    else score
  round2 score

/-- Model of `calculate_coverage_metrics` (lines 532-582). -/
def calculate_coverage_metrics (d : StructuredData) (test_cases : List TestCase) :
    MetricsResult :=
  if hasErrorSentinel test_cases then
    .error "Cannot calculate metrics with invalid test cases"
  else
    let num_fields := (d.fields.getD []).length
    let num_edge_cases := (d.edge_cases.getD []).length
    let total_requirements := num_fields + num_edge_cases
    let total_test_cases := test_cases.length
    let coverage_score : ℚ :=
      if total_requirements > 0 then
        (total_test_cases : ℚ) / (total_requirements : ℚ) * 10
      else 0
    .ok
      { requirement_coverage_score := round2 coverage_score
        total_cases := total_test_cases
        is_automation_ready := true
        breakdown :=
          { fields := num_fields
            validations := (d.validations.getD []).length
            edge_cases := num_edge_cases
            roles := (d.roles.getD []).length }
        test_type_distribution :=
          { Positive := (test_cases.filter fun tc => tc.type == "Positive").length
            Negative := (test_cases.filter fun tc => tc.type == "Negative").length
            Boundary := (test_cases.filter fun tc => tc.type == "Boundary").length }
        coverage_percentage :=
          if total_requirements > 0 then
            round2 ((total_test_cases : ℚ) / ((total_requirements : ℚ) * 2) * 100)
          else 0
        quality_score := _calculate_quality_score test_cases d }

/-! ### Structural lemmas about the four generation phases -/

/-- The category sequence the validation phase emits: one Negative per
entry, immediately followed by a Boundary entry when the rule matches. -/
def validationTypes : List (String × String) → List String
  | [] => []
  | (_, v) :: vs =>
    "Negative" :: ((if matchesBoundary v then ["Boundary"] else []) ++ validationTypes vs)

/-- The id-correctness invariant: the element at offset `i` of the emitted
list carries the id of counter value `c + i`. -/
def idsOk (L : List TestCase) (c : Nat) : Prop :=
  ∀ i (h : i < L.length), (L.get ⟨i, h⟩).tc_id = "TC_" ++ pad3 (c + i)

/-- The Login example requirement used by the spec and the sample data of the repository itself. -/
def dLogin : StructuredData :=
  { feature := some "Login", fields := some ["email", "password"],
    validations := some [("password", "min 8 chars")],
    roles := some ["admin"], edge_cases := some ["sql injection"] }

/-! ### Example inputs for counterexamples and witnesses -/

/-- Input mapping with `feature` present but `validations` absent. -/
def dMissingValidations : StructuredData :=
  { feature := some "Test", fields := some ["username"], validations := none,
    roles := some [], edge_cases := some [] }

/-- Requirement whose fields, validations, edge cases and roles are all
empty. -/
def emptyRequirementData (f : String) : StructuredData :=
  { feature := some f, fields := some [], validations := some [],
    roles := some [], edge_cases := some [] }

/-- Requirement with one field and no edge cases. -/
def dOneField : StructuredData :=
  { feature := some "F", fields := some ["a"], validations := some [],
    roles := some [], edge_cases := some [] }

/-- A minimal well-formed test case for feeding the metrics and
traceability functions directly. -/
def plainCase (n : Nat) : TestCase :=
  { tc_id := "TC_" ++ pad3 n, title := "t", type := "Positive",
    steps := [], expected_result := "", error := none }

theorem genFieldCases_length (f : String) (fs : List String) (c : Nat) :
    (genFieldCases f fs c).1.length = fs.length := by
  induction fs generalizing c with
  | nil => simp [genFieldCases]
  | cons a l ih => simp [genFieldCases, ih]

theorem genFieldCases_snd (f : String) (fs : List String) (c : Nat) :
    (genFieldCases f fs c).2 = c + fs.length := by
  induction fs generalizing c with
  | nil => simp [genFieldCases]
  | cons a l ih => simp [genFieldCases, ih]; omega

theorem genEdgeCases_length (f : String) (es : List String) (c : Nat) :
    (genEdgeCases f es c).1.length = es.length := by
  induction es generalizing c with
  | nil => simp [genEdgeCases]
  | cons a l ih => simp [genEdgeCases, ih]

theorem genEdgeCases_snd (f : String) (es : List String) (c : Nat) :
    (genEdgeCases f es c).2 = c + es.length := by
  induction es generalizing c with
  | nil => simp [genEdgeCases]
  | cons a l ih => simp [genEdgeCases, ih]; omega

theorem genRoleCases_length (f : String) (rs : List String) (c : Nat) :
    (genRoleCases f rs c).1.length = rs.length := by
  induction rs generalizing c with
  | nil => simp [genRoleCases]
  | cons a l ih => simp [genRoleCases, ih]

theorem genRoleCases_snd (f : String) (rs : List String) (c : Nat) :
    (genRoleCases f rs c).2 = c + rs.length := by
  induction rs generalizing c with
  | nil => simp [genRoleCases]
  | cons a l ih => simp [genRoleCases, ih]; omega

theorem genValidationCases_length (f : String) (vs : List (String × String)) (c : Nat) :
    (genValidationCases f vs c).1.length =
      vs.length + (vs.filter fun p => matchesBoundary p.2).length := by
  induction vs generalizing c with
  | nil => simp [genValidationCases]
  | cons a l ih =>
    obtain ⟨field, validation⟩ := a
    by_cases hm : matchesBoundary validation
    · simp [genValidationCases, hm, ih, List.filter]
      omega
    · simp [genValidationCases, hm, ih, List.filter]
      omega

theorem genValidationCases_snd (f : String) (vs : List (String × String)) (c : Nat) :
    (genValidationCases f vs c).2 = c + (genValidationCases f vs c).1.length := by
  induction vs generalizing c with
  | nil => simp [genValidationCases]
  | cons a l ih =>
    obtain ⟨field, validation⟩ := a
    by_cases hm : matchesBoundary validation
    · simp [genValidationCases, hm, ih]; omega
    · simp [genValidationCases, hm, ih]; omega

theorem genFieldCases_map_type (f : String) (fs : List String) (c : Nat) :
    (genFieldCases f fs c).1.map TestCase.type = List.replicate fs.length "Positive" := by
  induction fs generalizing c with
  | nil => simp [genFieldCases]
  | cons a l ih => simp [genFieldCases, ih, fieldCase, List.replicate]

theorem genEdgeCases_map_type (f : String) (es : List String) (c : Nat) :
    (genEdgeCases f es c).1.map TestCase.type = List.replicate es.length "Negative" := by
  induction es generalizing c with
  | nil => simp [genEdgeCases]
  | cons a l ih => simp [genEdgeCases, ih, edgeCaseCase, List.replicate]

theorem genRoleCases_map_type (f : String) (rs : List String) (c : Nat) :
    (genRoleCases f rs c).1.map TestCase.type = List.replicate rs.length "Positive" := by
  induction rs generalizing c with
  | nil => simp [genRoleCases]
  | cons a l ih => simp [genRoleCases, ih, roleCase, List.replicate]

theorem genValidationCases_map_type (f : String) (vs : List (String × String)) (c : Nat) :
    (genValidationCases f vs c).1.map TestCase.type = validationTypes vs := by
  induction vs generalizing c with
  | nil => simp [genValidationCases, validationTypes]
  | cons a l ih =>
    obtain ⟨field, validation⟩ := a
    by_cases hm : matchesBoundary validation
    · simp [genValidationCases, hm, ih, validationTypes, validationNegCase, boundaryCase]
    · simp [genValidationCases, hm, ih, validationTypes, validationNegCase]


theorem idsOk_nil (c : Nat) : idsOk [] c := by
  intro i h
  simp at h

theorem idsOk_cons {t : TestCase} {L : List TestCase} {c : Nat}
    (ht : t.tc_id = "TC_" ++ pad3 c) (hL : idsOk L (c + 1)) : idsOk (t :: L) c := by
  intro i h
  cases i with
  | zero => simpa using ht
  | succ j =>
    have hj : j < L.length := by simpa using h
    rw [show c + (j + 1) = c + 1 + j from by omega]
    exact hL j hj

theorem idsOk_of_cons {t : TestCase} {L : List TestCase} {c : Nat}
    (h : idsOk (t :: L) c) : idsOk L (c + 1) := by
  intro j hj
  have h1 := h (j + 1) (by simpa using Nat.succ_lt_succ hj)
  rw [show c + (j + 1) = c + 1 + j from by omega] at h1
  exact h1

theorem idsOk_append {L₁ L₂ : List TestCase} {c : Nat}
    (h₁ : idsOk L₁ c) (h₂ : idsOk L₂ (c + L₁.length)) : idsOk (L₁ ++ L₂) c := by
  induction L₁ generalizing c with
  | nil => simpa using h₂
  | cons t L ih =>
    have ht : t.tc_id = "TC_" ++ pad3 c := by simpa using h₁ 0 (by simp)
    refine idsOk_cons ht (ih (idsOk_of_cons h₁) ?_)
    have : c + (t :: L).length = c + 1 + L.length := by simp; omega
    rwa [this] at h₂

theorem genFieldCases_idsOk (f : String) (fs : List String) (c : Nat) :
    idsOk (genFieldCases f fs c).1 c := by
  induction fs generalizing c with
  | nil => simpa [genFieldCases] using idsOk_nil c
  | cons a l ih => exact idsOk_cons rfl (ih (c + 1))

theorem genEdgeCases_idsOk (f : String) (es : List String) (c : Nat) :
    idsOk (genEdgeCases f es c).1 c := by
  induction es generalizing c with
  | nil => simpa [genEdgeCases] using idsOk_nil c
  | cons a l ih => exact idsOk_cons rfl (ih (c + 1))

theorem genRoleCases_idsOk (f : String) (rs : List String) (c : Nat) :
    idsOk (genRoleCases f rs c).1 c := by
  induction rs generalizing c with
  | nil => simpa [genRoleCases] using idsOk_nil c
  | cons a l ih => exact idsOk_cons rfl (ih (c + 1))

theorem genValidationCases_idsOk (f : String) (vs : List (String × String)) (c : Nat) :
    idsOk (genValidationCases f vs c).1 c := by
  induction vs generalizing c with
  | nil => simpa [genValidationCases] using idsOk_nil c
  | cons a l ih =>
    obtain ⟨field, validation⟩ := a
    by_cases hm : matchesBoundary validation
    · have : (genValidationCases f ((field, validation) :: l) c).1 =
        validationNegCase f field validation c ::
          boundaryCase f field validation (firstRuleNumber validation) (c + 1) ::
            (genValidationCases f l (c + 2)).1 := by
        simp [genValidationCases, hm]
      rw [this]
      exact idsOk_cons rfl (idsOk_cons rfl (ih (c + 2)))
    · have : (genValidationCases f ((field, validation) :: l) c).1 =
        validationNegCase f field validation c :: (genValidationCases f l (c + 1)).1 := by
        simp [genValidationCases, hm]
      rw [this]
      exact idsOk_cons rfl (ih (c + 1))

theorem template_idsOk (r : Requirement) :
    idsOk (_generate_test_cases_template r) 1 := by
  unfold _generate_test_cases_template
  rw [List.append_assoc, List.append_assoc, genFieldCases_snd, genValidationCases_snd,
    genEdgeCases_snd]
  refine idsOk_append (genFieldCases_idsOk _ _ _) ?_
  rw [genFieldCases_length]
  refine idsOk_append (genValidationCases_idsOk _ _ _) ?_
  refine idsOk_append (genEdgeCases_idsOk _ _ _) ?_
  rw [genEdgeCases_length]
  exact genRoleCases_idsOk _ _ _

/-- When all five required keys are present, `generate_test_cases` runs the
template generator on the unwrapped requirement. -/
theorem generate_test_cases_of_complete (d : StructuredData) (f : String)
    (fl : List String) (v : List (String × String)) (r e : List String)
    (hf : d.feature = some f) (hfl : d.fields = some fl) (hv : d.validations = some v)
    (hr : d.roles = some r) (he : d.edge_cases = some e) :
    generate_test_cases d =
      _generate_test_cases_template ⟨f, fl, v, r, e⟩ := by
  have hmiss : missingKeys d = [] := by
    simp [missingKeys, hf, hfl, hv, hr, he]
  have hreq : toRequirement d = ⟨f, fl, v, r, e⟩ := by
    simp [toRequirement, hf, hfl, hv, hr, he]
  simp [generate_test_cases, _validate_input, hmiss, hreq]

/-! ### Claim theorems -/


/-- C1: for every input mapping containing all required keys, the template
synthesizer returns exactly n + v + bq + m + k test cases, where bq
counts the validations whose rule matches the boundary condition, and the
cases appear in four contiguous phases: one Positive per field, one Negative
per validation each immediately followed by its Boundary case when emitted,
one Negative per edge case, one Positive per role. -/
theorem template_emits_counts_and_phases (d : StructuredData) (f : String)
    (fl : List String) (v : List (String × String)) (rs es : List String)
    (hf : d.feature = some f) (hfl : d.fields = some fl) (hv : d.validations = some v)
    (hr : d.roles = some rs) (he : d.edge_cases = some es) :
    (generate_test_cases d).length =
      fl.length + v.length + (v.filter fun p => matchesBoundary p.2).length
        + es.length + rs.length
    ∧ (generate_test_cases d).map TestCase.type =
        List.replicate fl.length "Positive" ++ validationTypes v
          ++ List.replicate es.length "Negative" ++ List.replicate rs.length "Positive" := by
  rw [generate_test_cases_of_complete d f fl v rs es hf hfl hv hr he]
  constructor
  · unfold _generate_test_cases_template
    simp [genFieldCases_length, genValidationCases_length, genEdgeCases_length,
      genRoleCases_length]
    omega
  · unfold _generate_test_cases_template
    simp [genFieldCases_map_type, genValidationCases_map_type, genEdgeCases_map_type,
      genRoleCases_map_type]

theorem template_emits_counts_and_phases_witness :
    (generate_test_cases dLogin).length =
      ["email", "password"].length + [("password", "min 8 chars")].length
        + (([("password", "min 8 chars")]).filter fun p => matchesBoundary p.2).length
        + ["sql injection"].length + ["admin"].length
    ∧ (generate_test_cases dLogin).length = 6
    ∧ (generate_test_cases dLogin).map TestCase.type =
        ["Positive", "Positive", "Negative", "Boundary", "Negative", "Positive"] :=
  ⟨(template_emits_counts_and_phases dLogin "Login" ["email", "password"]
      [("password", "min 8 chars")] ["admin"] ["sql injection"]
      rfl rfl rfl rfl rfl).1,
   by decide, by decide⟩

/-- C5: the i-th test case emitted by the synthesizer (0-based offset `i`)
has id exactly `"TC_"` followed by `i + 1` zero-padded to 3 digits, so the
ids are contiguous, strictly increasing by counter, and start at
`TC_001`. -/
theorem tc_ids_contiguous_from_one (r : Requirement) (i : Nat)
    (h : i < (_generate_test_cases_template r).length) :
    ((_generate_test_cases_template r).get ⟨i, h⟩).tc_id = "TC_" ++ pad3 (i + 1) := by
  have h1 := template_idsOk r i h
  rwa [show 1 + i = i + 1 from by omega] at h1

theorem tc_ids_contiguous_from_one_witness :
    ((_generate_test_cases_template
        ⟨"Login", ["email"], [], [], []⟩).get ⟨0, by decide⟩).tc_id = "TC_" ++ pad3 (0 + 1)
    ∧ "TC_" ++ pad3 (0 + 1) = "TC_001" :=
  ⟨tc_ids_contiguous_from_one ⟨"Login", ["email"], [], [], []⟩ 0 (by decide), by decide⟩

/-- C6: a validation entry whose rule contains "min" or "max"
case-insensitively and at least one all-digit whitespace token makes the
generator emit exactly one Boundary case immediately after the Negative case of that entry, with the first integer of the rule as boundary value `b` and
a step testing `b-1, b, b+1`; an entry not meeting both conditions emits no
Boundary case. -/
theorem boundary_case_emission (f fld v : String) (vs : List (String × String)) (c : Nat) :
    (matchesBoundary v = true →
      (genValidationCases f ((fld, v) :: vs) c).1 =
        validationNegCase f fld v c ::
          { tc_id := "TC_" ++ pad3 (c + 1)
            title := "Boundary test for " ++ fld ++ " - " ++ v
            type := "Boundary"
            steps := ["Open " ++ f ++ " page",
                      "Enter " ++ fld ++ " with boundary value ("
                        ++ toString ((ruleNumbers v).headI - 1) ++ ", "
                        ++ toString ((ruleNumbers v).headI) ++ ", "
                        ++ toString ((ruleNumbers v).headI + 1) ++ ")",
                      "Submit the form",
                      "Verify behavior at boundary"]
            expected_result := "Correct behavior at " ++ v ++ " boundary"
            error := none } :: (genValidationCases f vs (c + 2)).1)
    ∧ (matchesBoundary v = false →
      (genValidationCases f ((fld, v) :: vs) c).1 =
        validationNegCase f fld v c :: (genValidationCases f vs (c + 1)).1)
    ∧ matchesBoundary v =
        ((strContains (strLower v) "min" || strContains (strLower v) "max")
          && !(ruleNumbers v).isEmpty) := by
  refine ⟨fun hm => ?_, fun hm => ?_, rfl⟩
  · simp [genValidationCases, hm, boundaryCase, firstRuleNumber]
  · simp [genValidationCases, hm]

theorem boundary_case_emission_witness :
    matchesBoundary "min 8 chars" = true
    ∧ (ruleNumbers "min 8 chars").headI = 8
    ∧ (genValidationCases "Login" [("password", "min 8 chars")] 3).1 =
        validationNegCase "Login" "password" "min 8 chars" 3 ::
          { tc_id := "TC_" ++ pad3 (3 + 1)
            title := "Boundary test for " ++ "password" ++ " - " ++ "min 8 chars"
            type := "Boundary"
            steps := ["Open " ++ "Login" ++ " page",
                      "Enter " ++ "password" ++ " with boundary value ("
                        ++ toString ((ruleNumbers "min 8 chars").headI - 1) ++ ", "
                        ++ toString ((ruleNumbers "min 8 chars").headI) ++ ", "
                        ++ toString ((ruleNumbers "min 8 chars").headI + 1) ++ ")",
                      "Submit the form",
                      "Verify behavior at boundary"]
            expected_result := "Correct behavior at " ++ "min 8 chars" ++ " boundary"
            error := none } :: (genValidationCases "Login" [] 5).1 :=
  ⟨by decide, by decide,
   (boundary_case_emission "Login" "password" "min 8 chars" [] 3).1 (by decide)⟩

/-- C9: the Login requirement with fields email and password, the password
validation "min 8 chars", role admin and edge case sql injection yields
exactly these six test cases, ids TC_001 through TC_006, in the order
Positive email, Positive password, Negative validation, Boundary with
boundary value 8, Negative sql injection, Positive admin role. -/
theorem login_example_six_cases :
    generate_test_cases dLogin =
      [{ tc_id := "TC_001", title := "Valid Login with correct email", type := "Positive",
         steps := ["Open Login page", "Enter valid email", "Submit the form",
                   "Verify submission"],
         expected_result := "Login successful with valid email", error := none },
       { tc_id := "TC_002", title := "Valid Login with correct password", type := "Positive",
         steps := ["Open Login page", "Enter valid password", "Submit the form",
                   "Verify submission"],
         expected_result := "Login successful with valid password", error := none },
       { tc_id := "TC_003", title := "Invalid Login - password fails min 8 chars",
         type := "Negative",
         steps := ["Open Login page", "Enter invalid password (violates: min 8 chars)",
                   "Submit the form", "Verify error message"],
         expected_result := "Error message displayed: min 8 chars validation failed",
         error := none },
       { tc_id := "TC_004", title := "Boundary test for password - min 8 chars",
         type := "Boundary",
         steps := ["Open Login page", "Enter password with boundary value (7, 8, 9)",
                   "Submit the form", "Verify behavior at boundary"],
         expected_result := "Correct behavior at min 8 chars boundary", error := none },
       { tc_id := "TC_005", title := "Login with sql injection", type := "Negative",
         steps := ["Open Login page", "Test with sql injection", "Submit the form",
                   "Verify system handles edge case"],
         expected_result := "System properly handles sql injection scenario",
         error := none },
       { tc_id := "TC_006", title := "Login access for admin role", type := "Positive",
         steps := ["Login as admin", "Access Login feature", "Verify access permissions",
                   "Perform \x7bfeature\x7d operation"],
         expected_result := "admin can access and use Login feature correctly",
         error := none }] := by
  decide

/-! ### Rounding bounds -/

theorem round2_nonneg {q : ℚ} (h : 0 ≤ q) : 0 ≤ round2 q := by
  unfold round2
  have h1 : (q * 100 : ℚ) - 1 / 2 < ((round (q * 100) : ℤ) : ℚ) := sub_half_lt_round _
  have h2 : (-1 : ℚ) < ((round (q * 100) : ℤ) : ℚ) := by nlinarith
  have h3 : (-1 : ℤ) < round (q * 100) := by exact_mod_cast h2
  have h4 : (0 : ℤ) ≤ round (q * 100) := by omega
  have h5 : (0 : ℚ) ≤ ((round (q * 100) : ℤ) : ℚ) := by exact_mod_cast h4
  exact div_nonneg h5 (by norm_num)

theorem round2_le_100 {q : ℚ} (h : q ≤ 100) : round2 q ≤ 100 := by
  unfold round2
  have h1 : ((round (q * 100) : ℤ) : ℚ) ≤ q * 100 + 1 / 2 := round_le_add_half _
  have h2 : ((round (q * 100) : ℤ) : ℚ) < 10001 := by nlinarith
  have h3 : round (q * 100) < (10001 : ℤ) := by exact_mod_cast h2
  have h4 : round (q * 100) ≤ (10000 : ℤ) := by omega
  have h5 : ((round (q * 100) : ℤ) : ℚ) ≤ 10000 := by exact_mod_cast h4
  linarith


/-- C4 counterexample: an input whose `feature` is present but whose
`validations` key is absent makes `generate_test_cases` fail with the
missing-key sentinel, contradicting the claim that missing `validations`
defaults to an empty mapping and that only a missing feature fails. -/
theorem missing_validations_fails :
    dMissingValidations.feature = some "Test"
    ∧ generate_test_cases dMissingValidations =
        [{ tc_id := "", title := "", type := "", steps := [], expected_result := "",
           error := some "Missing required keys: validations" }] :=
  ⟨rfl, by decide⟩

/-- C4 amended: `generate_test_cases` fails exactly when at least one of the
five required keys (feature, fields, validations, roles, edge_cases) is
absent; on failure the result is the single-element list whose element
carries an `error` message listing the missing keys, and no exception is
raised (the embedding is total). -/
theorem generate_fails_iff_missing_keys (d : StructuredData) :
    (missingKeys d = [] →
      generate_test_cases d = _generate_test_cases_template (toRequirement d))
    ∧ (missingKeys d ≠ [] →
      generate_test_cases d =
        [errorCase ("Missing required keys: " ++
          String.intercalate ", " (missingKeys d))]) := by
  constructor
  · intro h
    simp [generate_test_cases, _validate_input, h]
  · intro h
    simp [generate_test_cases, _validate_input, h]

theorem generate_fails_iff_missing_keys_witness :
    missingKeys dMissingValidations ≠ []
    ∧ generate_test_cases dMissingValidations =
        [errorCase ("Missing required keys: " ++
          String.intercalate ", " (missingKeys dMissingValidations))] :=
  ⟨by decide, (generate_fails_iff_missing_keys dMissingValidations).2 (by decide)⟩

/-- C3 counterexample: for the all-empty requirement the synthesizer does
return the empty list, but the metrics calculation over that empty list
returns the error dictionary, not `coverage_percentage = 0` and
`quality_score = 0` as the claim states. -/
theorem empty_requirement_metrics_error :
    generate_test_cases (emptyRequirementData "Login") = []
    ∧ calculate_coverage_metrics (emptyRequirementData "Login") [] =
        .error "Cannot calculate metrics with invalid test cases"
    ∧ coveragePercentageOf (calculate_coverage_metrics (emptyRequirementData "Login") []) = none
    ∧ qualityScoreOf (calculate_coverage_metrics (emptyRequirementData "Login") []) = none := by
  refine ⟨by decide, rfl, rfl, rfl⟩

/-- C3 amended: a requirement whose fields, validations, edge cases and
roles are all empty yields an empty test-case list, and both the metrics
calculator and the traceability builder treat that empty list as carrying
the error sentinel, returning their error dictionaries instead of scores. -/
theorem empty_requirement_empty_cases_then_error (f : String) :
    generate_test_cases (emptyRequirementData f) = []
    ∧ calculate_coverage_metrics (emptyRequirementData f)
        (generate_test_cases (emptyRequirementData f)) =
          .error "Cannot calculate metrics with invalid test cases"
    ∧ create_traceability_matrix (emptyRequirementData f)
        (generate_test_cases (emptyRequirementData f)) =
          .error "Cannot create matrix with invalid test cases" := by
  have h1 : generate_test_cases (emptyRequirementData f) = [] := by
    simp [generate_test_cases, _validate_input, missingKeys, emptyRequirementData,
      toRequirement, _generate_test_cases_template, genFieldCases, genValidationCases,
      genEdgeCases, genRoleCases]
  exact ⟨h1, by rw [h1]; rfl, by rw [h1]; rfl⟩

/-- C2 counterexample: with one field, no edge cases and three test cases,
`calculate_coverage_metrics` reports `coverage_percentage = 150`, so the
value is not `min(100, ...)` (which would be 100) and does not lie in
`[0, 100]`. -/
theorem coverage_percentage_exceeds_100 :
    coveragePercentageOf
      (calculate_coverage_metrics dOneField [plainCase 1, plainCase 2, plainCase 3]) =
        some 150
    ∧ min (100 : ℚ) 150 = 100
    ∧ ¬ ((150 : ℚ) ≤ 100) := by
  refine ⟨?_, by norm_num, by norm_num⟩
  have h150 : round2 ((3 : ℚ) / 2 * 100) = 150 := by
    unfold round2
    rw [show ((3 : ℚ) / 2 * 100 * 100) = ((15000 : ℕ) : ℚ) by norm_num, round_natCast]
    norm_num
  simp [calculate_coverage_metrics, hasErrorSentinel, plainCase, dOneField,
    coveragePercentageOf, h150]

/-- C2 amended: for every requirement and non-error first element,
`coverage_percentage` equals `(total_test_cases / (2 * elements)) * 100`
rounded to 2 decimal places with no clamping at 100 (and 0 when the element
count is 0); the value is always non-negative but can exceed 100. -/
theorem coverage_percentage_formula_unclamped (d : StructuredData) (tc : TestCase)
    (rest : List TestCase) (h : tc.error = none) :
    coveragePercentageOf (calculate_coverage_metrics d (tc :: rest)) =
      some (if 0 < (d.fields.getD []).length + (d.edge_cases.getD []).length then
              round2 (((tc :: rest).length : ℚ) /
                ((((d.fields.getD []).length + (d.edge_cases.getD []).length : Nat) : ℚ) * 2)
                  * 100)
            else 0)
    ∧ (∀ q, coveragePercentageOf (calculate_coverage_metrics d (tc :: rest)) = some q →
        0 ≤ q) := by
  have hs : hasErrorSentinel (tc :: rest) = false := by
    simp [hasErrorSentinel, h]
  have hmain : coveragePercentageOf (calculate_coverage_metrics d (tc :: rest)) =
      some (if 0 < (d.fields.getD []).length + (d.edge_cases.getD []).length then
              round2 (((tc :: rest).length : ℚ) /
                ((((d.fields.getD []).length + (d.edge_cases.getD []).length : Nat) : ℚ) * 2)
                  * 100)
            else 0) := by
    simp [calculate_coverage_metrics, hs, coveragePercentageOf]
  refine ⟨hmain, fun q hq => ?_⟩
  rw [hmain] at hq
  have hq2 := Option.some.inj hq
  by_cases hc : 0 < (d.fields.getD []).length + (d.edge_cases.getD []).length
  · rw [if_pos hc] at hq2
    rw [← hq2]
    exact round2_nonneg (by positivity)
  · rw [if_neg hc] at hq2
    rw [← hq2]

theorem coverage_percentage_formula_unclamped_witness :
    (plainCase 1).error = none
    ∧ coveragePercentageOf (calculate_coverage_metrics dOneField [plainCase 1]) =
        some (if 0 < (dOneField.fields.getD []).length +
                  (dOneField.edge_cases.getD []).length then
                round2 ((([plainCase 1] : List TestCase).length : ℚ) /
                  ((((dOneField.fields.getD []).length +
                      (dOneField.edge_cases.getD []).length : Nat) : ℚ) * 2) * 100)
              else 0) :=
  ⟨rfl, (coverage_percentage_formula_unclamped dOneField (plainCase 1) [] rfl).1⟩

/-- C7: for every requirement and test-case list whose first element does
not carry the error sentinel, the traceability builder maps each field and
each edge case to the ids of exactly the test cases whose title contains
the text of that element case-insensitively, and reports the coverage ratio as
the test-case count, then " : ", then the field-plus-edge-case count; the
field "email" matches the title "Valid Login with correct email" but not
"Valid Login with correct password". -/
theorem traceability_matrix_spec (d : StructuredData) (tc : TestCase)
    (rest : List TestCase) (h : tc.error = none) :
    create_traceability_matrix d (tc :: rest) =
      .ok { feature := d.feature.getD "Unknown"
            requirement_id :=
              "REQ_" ++ spacesToUnderscores (strUpper (d.feature.getD "Unknown"))
            test_case_ids := (tc :: rest).map fun t => t.tc_id
            coverage :=
              { total_requirements :=
                  (d.fields.getD []).length + (d.edge_cases.getD []).length
                total_test_cases := ((tc :: rest).map fun t => t.tc_id).length
                coverage_ratio :=
                  toString ((tc :: rest).map fun t => t.tc_id).length ++ " : " ++
                    toString ((d.fields.getD []).length + (d.edge_cases.getD []).length) }
            mapping :=
              { fields_covered := (d.fields.getD []).map fun field =>
                  (field, ((tc :: rest).filter fun t =>
                    strContains (strLower t.title) (strLower field)).map fun t => t.tc_id)
                edge_cases_covered := (d.edge_cases.getD []).map fun edge =>
                  (edge, ((tc :: rest).filter fun t =>
                    strContains (strLower t.title) (strLower edge)).map fun t => t.tc_id) } }
    ∧ strContains (strLower "Valid Login with correct email") (strLower "email") = true
    ∧ strContains (strLower "Valid Login with correct password") (strLower "email") = false := by
  refine ⟨?_, by decide, by decide⟩
  have hs : hasErrorSentinel (tc :: rest) = false := by
    simp [hasErrorSentinel, h]
  simp [create_traceability_matrix, hs]

theorem traceability_matrix_spec_witness :
    (plainCase 1).error = none
    ∧ (create_traceability_matrix dLogin [plainCase 1]).isOk = true := by
  have h := traceability_matrix_spec dLogin (plainCase 1) [] rfl
  exact ⟨rfl, by rw [h.1]; rfl⟩

/-- C10: both the traceability builder and the metrics calculator decide
error-ness from the first element only: an empty list or a first element
carrying the error key yields the error dictionary, while any list whose
first element is error-free yields a normal result, regardless of later
elements. -/
theorem error_sentinel_first_element_only (d : StructuredData) (tc : TestCase)
    (rest : List TestCase) :
    create_traceability_matrix d [] = .error "Cannot create matrix with invalid test cases"
    ∧ calculate_coverage_metrics d [] = .error "Cannot calculate metrics with invalid test cases"
    ∧ (tc.error = none →
        (create_traceability_matrix d (tc :: rest)).isOk = true
        ∧ (calculate_coverage_metrics d (tc :: rest)).isOk = true)
    ∧ (∀ e, tc.error = some e →
        create_traceability_matrix d (tc :: rest) =
          .error "Cannot create matrix with invalid test cases"
        ∧ calculate_coverage_metrics d (tc :: rest) =
          .error "Cannot calculate metrics with invalid test cases") := by
  refine ⟨rfl, rfl, fun h => ?_, fun e he => ?_⟩
  · have hs : hasErrorSentinel (tc :: rest) = false := by
      simp [hasErrorSentinel, h]
    exact ⟨by simp [create_traceability_matrix, hs, TraceResult.isOk],
           by simp [calculate_coverage_metrics, hs, MetricsResult.isOk]⟩
  · have hs : hasErrorSentinel (tc :: rest) = true := by
      simp [hasErrorSentinel, he]
    exact ⟨by simp [create_traceability_matrix, hs],
           by simp [calculate_coverage_metrics, hs]⟩

theorem error_sentinel_first_element_only_witness :
    (plainCase 1).error = none
    ∧ (errorCase "late failure").error = some "late failure"
    ∧ (create_traceability_matrix dLogin [plainCase 1, errorCase "late failure"]).isOk = true
    ∧ (calculate_coverage_metrics dLogin [plainCase 1, errorCase "late failure"]).isOk = true := by
  have h := (error_sentinel_first_element_only dLogin (plainCase 1)
    [errorCase "late failure"]).2.2.1 rfl
  exact ⟨rfl, rfl, h.1, h.2⟩

set_option maxHeartbeats 1000000 in
/-- C8: the quality score equals the rounded sum of four criteria: 30 when
both Positive and Negative cases are present (15 when exactly one of the
two is, 0 otherwise), 20 when some Boundary case is present, 25 times the
fraction of fields appearing case-insensitively in some title, and 25 times
the fraction of edge cases appearing case-insensitively in some title; the
result always lies in [0, 100]. -/
theorem quality_score_formula_and_range (d : StructuredData) (tcs : List TestCase) :
    _calculate_quality_score tcs d =
      round2 ((if (tcs.any fun tc => tc.type == "Positive")
                  && (tcs.any fun tc => tc.type == "Negative") then (30 : ℚ)
               else if (tcs.any fun tc => tc.type == "Positive")
                  || (tcs.any fun tc => tc.type == "Negative") then 15 else 0)
        + (if tcs.any fun tc => tc.type == "Boundary" then (20 : ℚ) else 0)
        + (if (d.fields.getD []) ≠ [] then
             ((coveredCount (d.fields.getD []) tcs : ℚ) /
               ((d.fields.getD []).length : ℚ)) * 25
           else 0)
        + (if (d.edge_cases.getD []) ≠ [] then
             ((coveredCount (d.edge_cases.getD []) tcs : ℚ) /
               ((d.edge_cases.getD []).length : ℚ)) * 25
           else 0))
    ∧ 0 ≤ _calculate_quality_score tcs d
    ∧ _calculate_quality_score tcs d ≤ 100 := by
  have hfrac : ∀ els : List String, els ≠ [] →
      0 ≤ ((coveredCount els tcs : ℚ) / (els.length : ℚ)) * 25
      ∧ ((coveredCount els tcs : ℚ) / (els.length : ℚ)) * 25 ≤ 25 := by
    intro els hne
    have hlen : (0 : ℚ) < (els.length : ℚ) := by
      have hl : 0 < els.length := List.length_pos.mpr hne
      exact_mod_cast hl
    have hcov : (coveredCount els tcs : ℚ) ≤ (els.length : ℚ) := by
      exact_mod_cast List.length_filter_le _ els
    have hdiv : (coveredCount els tcs : ℚ) / (els.length : ℚ) ≤ 1 := by
      rw [div_le_one hlen]
      exact hcov
    constructor
    · positivity
    · nlinarith
  have h3 : 0 ≤ (if (d.fields.getD []) ≠ [] then
        ((coveredCount (d.fields.getD []) tcs : ℚ) / ((d.fields.getD []).length : ℚ)) * 25
      else 0)
      ∧ (if (d.fields.getD []) ≠ [] then
        ((coveredCount (d.fields.getD []) tcs : ℚ) / ((d.fields.getD []).length : ℚ)) * 25
      else 0) ≤ 25 := by
    split_ifs with hne
    · exact hfrac _ hne
    · norm_num
  have h4 : 0 ≤ (if (d.edge_cases.getD []) ≠ [] then
        ((coveredCount (d.edge_cases.getD []) tcs : ℚ) /
          ((d.edge_cases.getD []).length : ℚ)) * 25
      else 0)
      ∧ (if (d.edge_cases.getD []) ≠ [] then
        ((coveredCount (d.edge_cases.getD []) tcs : ℚ) /
          ((d.edge_cases.getD []).length : ℚ)) * 25
      else 0) ≤ 25 := by
    split_ifs with hne
    · exact hfrac _ hne
    · norm_num
  have h1 : 0 ≤ (if (tcs.any fun tc => tc.type == "Positive")
        && (tcs.any fun tc => tc.type == "Negative") then (30 : ℚ)
      else if (tcs.any fun tc => tc.type == "Positive")
        || (tcs.any fun tc => tc.type == "Negative") then 15 else 0)
      ∧ (if (tcs.any fun tc => tc.type == "Positive")
        && (tcs.any fun tc => tc.type == "Negative") then (30 : ℚ)
      else if (tcs.any fun tc => tc.type == "Positive")
        || (tcs.any fun tc => tc.type == "Negative") then 15 else 0) ≤ 30 := by
    split_ifs <;> norm_num
  have h2 : 0 ≤ (if tcs.any fun tc => tc.type == "Boundary" then (20 : ℚ) else 0)
      ∧ (if tcs.any fun tc => tc.type == "Boundary" then (20 : ℚ) else 0) ≤ 20 := by
    split_ifs <;> norm_num
  have hshape : _calculate_quality_score tcs d =
      round2 ((if (tcs.any fun tc => tc.type == "Positive")
                  && (tcs.any fun tc => tc.type == "Negative") then (30 : ℚ)
               else if (tcs.any fun tc => tc.type == "Positive")
                  || (tcs.any fun tc => tc.type == "Negative") then 15 else 0)
        + (if tcs.any fun tc => tc.type == "Boundary" then (20 : ℚ) else 0)
        + (if (d.fields.getD []) ≠ [] then
             ((coveredCount (d.fields.getD []) tcs : ℚ) /
               ((d.fields.getD []).length : ℚ)) * 25
           else 0)
        + (if (d.edge_cases.getD []) ≠ [] then
             ((coveredCount (d.edge_cases.getD []) tcs : ℚ) /
               ((d.edge_cases.getD []).length : ℚ)) * 25
           else 0)) := by
    simp only [_calculate_quality_score]
    split_ifs <;> exact congrArg round2 (by ring)
  refine ⟨hshape, ?_, ?_⟩
  · rw [hshape]
    exact round2_nonneg (by linarith [h1.1, h2.1, h3.1, h4.1])
  · rw [hshape]
    exact round2_le_100 (by linarith [h1.2, h2.2, h3.2, h4.2])
